import Mathlib

/-!
# A verification model of `screenshot-list`

This file shallowly embeds the core data model and operations of the
`screenshot-list` program (a Win32 application maintaining a list of
screen captures) and proves properties about them.

Embedded sources:
* `screenshot.cc` / `screenshot.h` — the `Screenshot` class: image data,
  BMP encode (`writeToBMPFile`), BMP decode (`readFromBMPFile`),
  aspect-preserving drawing (`drawToDC`), `heightForWidth`, `clear`.
* `dcx.cc` / `dcx.h` — the `DCX` viewport algebra, in particular
  `splitHorizontallyFromRight`.
* `screenshot-list.cc` (the `SLMainWindow` revision) /
  `screenshot-list.h` — the list model: `selectItem`, `captureScreen`,
  the `VK_DELETE` branch of `onKeyPress`, `getItemVerticalBounds`,
  `getListContentHeight`, `scrollToSelectedIndex`, `setVScrollInfo`,
  `onVScroll`, and the JSON persistence (`saveToJSON`, `loadFromJSON`,
  `loadFromFile`) built on the `LOAD_KEY_FIELD` / `SAVE_KEY_FIELD_CTOR`
  macros of `json-util.h`.

Modelling conventions:
* C++ `int` is modelled as `Int` (no overflow modelling: all quantities
  involved are pixel coordinates and list sizes, far below 2^31 in every
  concrete scenario considered here).
* C++ integer division truncates toward zero; it is modelled by
  `Int.tdiv`.  All uses in the embedded code have non-negative operands,
  where `Int.tdiv` agrees with every other division convention.
* `float` arithmetic (`heightForWidth`, the aspect-ratio comparisons of
  `drawToDC`) is modelled by exact rational arithmetic expressed over
  `Int` (an exact ceiling helper, and cross-multiplied comparisons).
  For the moderate pixel dimensions this code handles the float
  computation is exact, and every property proved below about the
  aspect/bar arithmetic is independent of the rounding of the quotient
  itself.
* Win32 resources are abstracted: an `HBITMAP` is `Option Nat` (a handle
  id, `none` = null); an `HDC` is a `Nat` id; the window client height
  returned by `getWindowClientHeight(m_hwnd)` is threaded through the
  operations as an explicit `wh : Int` argument; redraw requests
  (`invalidateAllPixels`) and the `SetScrollInfo` call are host side
  effects with no model state and are dropped.
-/

/-! ## Screenshot (`screenshot.h` / `screenshot.cc`) -/

/-- A single in-game screenshot (`class Screenshot`): the GDI bitmap
handle (`none` = null), its pixel dimensions, and the file name the
image was saved to. -/
structure Screenshot where
  m_bitmap : Option Nat
  m_width : Int
  m_height : Int
  m_fname : String
deriving DecidableEq, Repr

/-- Exact integer ceiling of the rational `a / b`, for `b > 0`:
`⌈a/b⌉ = -((-a) divE b)` where `divE` is Lean's Euclidean (floor, for a
positive divisor) division. -/
def ceilRatio (a b : Int) : Int := -((-a) / b)

/-- `Screenshot::heightForWidth(w)` (screenshot.cc:367-375): if
`m_width > 0`, `ceil(m_height * w / m_width)`, else 0.  The source
computes the quotient in `float` and applies `std::ceil`; this model
takes the exact rational ceiling. -/
def Screenshot.heightForWidth (sc : Screenshot) (w : Int) : Int :=
  if 0 < sc.m_width then ceilRatio (sc.m_height * w) sc.m_width else 0

/-- `Screenshot::clear()` (screenshot.cc:207-216): release the bitmap
(idempotent), zero the dimensions, clear the file name. -/
def Screenshot.clear (_sc : Screenshot) : Screenshot :=
  { m_bitmap := none, m_width := 0, m_height := 0, m_fname := "" }

/-- What a successful `LoadImageW` + `GetObject` yields in
`Screenshot::readFromBMPFile`: the new bitmap handle and the dimensions
read from the loaded image. -/
structure LoadedImage where
  handle : Nat
  bmWidth : Int
  bmHeight : Int
deriving DecidableEq, Repr

/-- `Screenshot::readFromBMPFile(fname)` (screenshot.cc:507-535).  The
outcome of `LoadImageW` on the file is an explicit argument (`none` =
the load failed).  On failure the method returns `false` without
touching any member; on success it calls `clear()` and then installs the
new handle, dimensions and file name, returning `true`. -/
def Screenshot.readFromBMPFile (sc : Screenshot) (fname : String)
    (loaded : Option LoadedImage) : Bool × Screenshot :=
  match loaded with
  | none => (false, sc)
  | some img =>
    let cleared := sc.clear
    (true, { cleared with
               m_bitmap := some img.handle,
               m_width := img.bmWidth,
               m_height := img.bmHeight,
               m_fname := fname })

/-! ### BMP encoding (`Screenshot::writeToBMPFile`, screenshot.cc:421-504) -/

/-- The fields of `BITMAPFILEHEADER` the encoder fills in. -/
structure BITMAPFILEHEADER where
  bfType : Int
  bfSize : Int
  bfReserved1 : Int
  bfReserved2 : Int
  bfOffBits : Int
deriving DecidableEq, Repr

/-- The fields of `BITMAPINFOHEADER` the encoder fills in. -/
structure BITMAPINFOHEADER where
  biSize : Int
  biWidth : Int
  biHeight : Int
  biPlanes : Int
  biBitCount : Int
  biCompression : Int
  biSizeImage : Int
  biXPelsPerMeter : Int
  biYPelsPerMeter : Int
  biClrUsed : Int
  biClrImportant : Int
deriving DecidableEq, Repr

/-- `sizeof(BITMAPFILEHEADER)`: 14 bytes (the struct is 2-byte packed in
`windows.h`). -/
def sizeofBITMAPFILEHEADER : Int := 14

/-- `sizeof(BITMAPINFOHEADER)`: 40 bytes. -/
def sizeofBITMAPINFOHEADER : Int := 40

/-- `BI_RGB`, the "no compression" constant. -/
def BI_RGB : Int := 0

/-- The file `writeToBMPFile` produces: the two headers and the pixel
payload size, plus `writes`, the byte counts of the three `writeFile`
calls in the order they are issued. -/
structure BMPFileImage where
  bmfHeader : BITMAPFILEHEADER
  bmiHeader : BITMAPINFOHEADER
  pixelDataSize : Int
  writes : List Int
deriving DecidableEq, Repr

/-- `Screenshot::writeToBMPFile()` (screenshot.cc:421-504).  `GetObject`
reads the dimensions back from the GDI bitmap; by the class invariant
they equal `m_width`/`m_height`.  The method is `const`: it only reads
the screenshot, which the model reflects by returning the encoded file
alone.  Division is C truncating division (`Int.tdiv`); both operands
are non-negative for any real bitmap. -/
def Screenshot.writeToBMPFile (sc : Screenshot) : BMPFileImage :=
  let bmWidth := sc.m_width
  let bmHeight := sc.m_height
  let bmiHeader : BITMAPINFOHEADER :=
    { biSize := sizeofBITMAPINFOHEADER,
      biWidth := bmWidth,
      biHeight := bmHeight,
      biPlanes := 1,
      biBitCount := 32,
      biCompression := BI_RGB,
      biSizeImage := 0,
      biXPelsPerMeter := 0,
      biYPelsPerMeter := 0,
      biClrUsed := 0,
      biClrImportant := 0 }
  let pixelDataSizeBytes :=
    ((bmWidth * bmiHeader.biBitCount + 31).tdiv 32) * 4 * bmHeight
  let bmfHeader : BITMAPFILEHEADER :=
    { bfType := 0x4D42,
      bfSize := sizeofBITMAPFILEHEADER + sizeofBITMAPINFOHEADER
                  + pixelDataSizeBytes,
      bfReserved1 := 0,
      bfReserved2 := 0,
      bfOffBits := sizeofBITMAPFILEHEADER + sizeofBITMAPINFOHEADER }
  { bmfHeader := bmfHeader,
    bmiHeader := bmiHeader,
    pixelDataSize := pixelDataSizeBytes,
    writes := [sizeofBITMAPFILEHEADER, sizeofBITMAPINFOHEADER,
               pixelDataSizeBytes] }

/-! ### Aspect-preserving drawing (`Screenshot::drawToDC`, screenshot.cc:273-350) -/

/-- What `drawToDC` draws: nothing (non-positive destination), a
background fill (empty image), left/right bars plus the image,
top/bottom bars plus the image, or the full-bleed image. -/
inductive DrawOutcome where
  | noop
  | bgFill
  | barsLR (leftBarW rightBarW properWidth : Int)
  | barsTB (topBarH bottomBarH properHeight : Int)
  | fullBleed
deriving DecidableEq, Repr

/-- `Screenshot::drawToDC(hdc, x, y, w, h)` (screenshot.cc:273-350),
reduced to the drawing decision it makes.  The float aspect-ratio
comparisons `srcAR < destAR` (with `srcAR = m_width/m_height`,
`destAR = w/h`) are modelled exactly by cross-multiplication, valid
because the guards guarantee `m_height > 0` and `h > 0`; the float
truncations `(int)(h * srcAR)` and `(int)(w / srcAR)` become exact
truncating divisions. -/
def Screenshot.drawToDC (sc : Screenshot) (_x _y w h : Int) : DrawOutcome :=
  if w ≤ 0 ∨ h ≤ 0 then
    .noop
  else if sc.m_width ≤ 0 ∨ sc.m_height ≤ 0 then
    .bgFill
  else if sc.m_width * h < w * sc.m_height then
    -- srcAR < destAR: source is narrower, bars on left and right.
    let properWidth := (h * sc.m_width).tdiv sc.m_height
    let excess := w - properWidth
    let leftBarW := excess.tdiv 2
    let rightBarW := excess - leftBarW
    .barsLR leftBarW rightBarW properWidth
  else if w * sc.m_height < sc.m_width * h then
    -- srcAR > destAR: source is wider, bars on top and bottom.
    let properHeight := (w * sc.m_height).tdiv sc.m_width
    let excess := h - properHeight
    let topBarH := excess.tdiv 2
    let bottomBarH := excess - topBarH
    .barsTB topBarH bottomBarH properHeight
  else
    .fullBleed

/-! ## DCX (`dcx.h` / `dcx.cc`) -/

/-- `class DCX`: a display context (not owned, abstracted to an id) plus
the cursor rectangle `(x, y, w, h)`.  No invariants are imposed on the
coordinates; they may be zero or negative. -/
structure DCX where
  hdc : Nat
  x : Int
  y : Int
  w : Int
  h : Int
deriving DecidableEq, Repr

/-- `vectorSum(vec)` (dcx.cc:49-58). -/
def vectorSum (vec : List Int) : Int := vec.foldl (· + ·) 0

/-- The loop of `DCX::splitHorizontallyFromRight` (dcx.cc:72-77): for
each requested width, move the running viewport just past the previous
one and give it that width. -/
def splitFromRightLoop (dcx : DCX) : List Int → List DCX
  | [] => []
  | w :: rest =>
    let next := { dcx with x := dcx.x + dcx.w, w := w }
    next :: splitFromRightLoop next rest

/-- `DCX::splitHorizontallyFromRight(widths)` (dcx.cc:61-80): the first
partition takes all space remaining after the other columns, then the
loop appends one viewport per requested width. -/
def DCX.splitHorizontallyFromRight (d : DCX) (widths : List Int) : List DCX :=
  let first := { d with w := d.w - vectorSum widths }
  first :: splitFromRightLoop first widths

/-- `DCX::shrinkByMargin(margin)` (dcx.cc:83-89). -/
def DCX.shrinkByMargin (d : DCX) (margin : Int) : DCX :=
  { d with x := d.x + margin, y := d.y + margin,
           w := d.w - margin * 2, h := d.h - margin * 2 }

/-- `DCX::moveTopBy(dy)` (dcx.cc:92-96). -/
def DCX.moveTopBy (d : DCX) (dy : Int) : DCX :=
  { d with y := d.y + dy, h := d.h - dy }

/-! ## SLMainWindow (`screenshot-list.h` / `screenshot-list.cc`) -/

/-- `c_listMargin` (screenshot-list.cc:47). -/
def c_listMargin : Int := 5

/-- `c_dividerWidth` (screenshot-list.cc:43). -/
def c_dividerWidth : Int := 3

/-- `c_vscrollLineAmount` (screenshot-list.cc:57). -/
def c_vscrollLineAmount : Int := 20

/-- The model data of `class SLMainWindow` (screenshot-list.h:21-36):
the screenshot sequence (most recent first), list width, selected index
(−1 for none), scroll offset, and the hotkey-registration flag.  The
ephemeral UI members (`m_hwnd`, `m_menuBar`) are external resources and
are not part of the model. -/
structure SLMainWindow where
  m_screenshots : List Screenshot
  m_listWidth : Int
  m_selectedIndex : Int
  m_listScroll : Int
  m_hotkeysRegistered : Bool
deriving DecidableEq, Repr

/-- `SLMainWindow::SLMainWindow()` (screenshot-list.cc:66-73). -/
def SLMainWindow.init : SLMainWindow :=
  { m_screenshots := [],
    m_listWidth := 400,
    m_selectedIndex := -1,
    m_listScroll := 0,
    m_hotkeysRegistered := false }

/-- The loop of `SLMainWindow::getItemVerticalBounds`
(screenshot-list.cc:249-275): accumulate `c_listMargin + shotHeight` for
each item before `chosenIndex`; on a match return the accumulated top
offset and `shotHeight + 2*c_listMargin`; past the end return the total
content height (one trailing margin added) and 0. -/
def getItemVerticalBoundsLoop (innerW chosenIndex : Int) :
    List Screenshot → Int → Int → Int × Int
  | [], y, _currentIndex => (y + c_listMargin, 0)
  | shot :: rest, y, currentIndex =>
    let shotHeight := shot.heightForWidth innerW
    if currentIndex = chosenIndex then
      (y, shotHeight + c_listMargin * 2)
    else
      getItemVerticalBoundsLoop innerW chosenIndex rest
        (y + c_listMargin + shotHeight) (currentIndex + 1)

/-- `SLMainWindow::getItemVerticalBounds(chosenIndex, y, h)`
(screenshot-list.cc:249-275), with the two OUT parameters returned as a
pair `(y, h)`. -/
def SLMainWindow.getItemVerticalBounds (s : SLMainWindow)
    (chosenIndex : Int) : Int × Int :=
  getItemVerticalBoundsLoop (s.m_listWidth - c_listMargin * 2) chosenIndex
    s.m_screenshots 0 0

/-- `SLMainWindow::getListContentHeight()` (screenshot-list.cc:241-246):
the `y` of the virtual past-the-end item. -/
def SLMainWindow.getListContentHeight (s : SLMainWindow) : Int :=
  (s.getItemVerticalBounds (-1)).1

/-- The scroll arithmetic of `SLMainWindow::scrollToSelectedIndex`
(screenshot-list.cc:278-309) on the selected item's bounds `(y, h)`:
first, if the item's bottom is below the window, scroll down just enough
to reveal it; then, against the *updated* scroll value, if the item's
top is above the window, scroll up to it. -/
def scrollAdjust (y h windowHeight listScroll : Int) : Int :=
  let scroll1 := if y + h > listScroll + windowHeight
                 then y + h - windowHeight else listScroll
  if y < scroll1 then y else scroll1

/-- `SLMainWindow::scrollToSelectedIndex()` (screenshot-list.cc:278-309).
`wh` is `getWindowClientHeight(m_hwnd)`. -/
def SLMainWindow.scrollToSelectedIndex (s : SLMainWindow) (wh : Int) :
    SLMainWindow :=
  if 0 ≤ s.m_selectedIndex then
    { s with m_listScroll :=
        (scrollAdjust (s.getItemVerticalBounds s.m_selectedIndex).1
          (s.getItemVerticalBounds s.m_selectedIndex).2 wh s.m_listScroll) }
  else s

/-- `std::clamp(v, lo, hi)`: `lo` if `v < lo`, else `hi` if `hi < v`,
else `v`. -/
def clampStd (v lo hi : Int) : Int :=
  if v < lo then lo else if hi < v then hi else v

/-- `SLMainWindow::setVScrollInfo()` (screenshot-list.cc:312-338): clamp
`m_listScroll` into `[0, max(0, contentHeight - windowHeight)]`.  The
subsequent `SetScrollInfo` call informs the host scrollbar and has no
model state. -/
def SLMainWindow.setVScrollInfo (s : SLMainWindow) (wh : Int) :
    SLMainWindow :=
  { s with m_listScroll :=
      clampStd s.m_listScroll 0 (max 0 (s.getListContentHeight - wh)) }

/-- The index-bounding block of `SLMainWindow::selectItem`
(screenshot-list.cc:138-145): −1 when the sequence is empty, else the
argument clamped into `[0, size-1]`. -/
def boundIndex (s : SLMainWindow) (newIndex : Int) : Int :=
  if s.m_screenshots = [] then -1
  else min ((s.m_screenshots.length : Int) - 1) (max 0 newIndex)

/-- `SLMainWindow::selectItem(newIndex)` (screenshot-list.cc:136-153):
bound the index; if it differs from the current selection, install it,
scroll it into view, update the scrollbar (which clamps the scroll) and
request a redraw; otherwise do nothing. -/
def SLMainWindow.selectItem (s : SLMainWindow) (wh newIndex : Int) :
    SLMainWindow :=
  if boundIndex s newIndex ≠ s.m_selectedIndex then
    (({ s with m_selectedIndex := boundIndex s newIndex
      }).scrollToSelectedIndex wh).setVScrollInfo wh
  else s

/-- `SLMainWindow::boundSelectedIndex()` (screenshot-list.cc:156-159). -/
def SLMainWindow.boundSelectedIndex (s : SLMainWindow) (wh : Int) :
    SLMainWindow :=
  s.selectItem wh s.m_selectedIndex

/-- `SLMainWindow::captureScreen()` (screenshot-list.cc:80-86): prepend
a freshly captured screenshot (the capture itself is a host interaction;
the new `Screenshot` value is an argument), select item 0, update the
scrollbar. -/
def SLMainWindow.captureScreen (s : SLMainWindow) (wh : Int)
    (shot : Screenshot) : SLMainWindow :=
  (({ s with m_screenshots := shot :: s.m_screenshots
    }).selectItem wh 0).setVScrollInfo wh

/-- The `VK_DELETE` branch of `SLMainWindow::onKeyPress`
(screenshot-list.cc:537-545): if the list is non-empty and something is
selected, erase the selected entry, re-bound the selection
(`boundSelectedIndex`), and update the scrollbar. -/
def SLMainWindow.deleteSelected (s : SLMainWindow) (wh : Int) :
    SLMainWindow :=
  if s.m_screenshots ≠ [] ∧ 0 ≤ s.m_selectedIndex then
    ((({ s with m_screenshots :=
          s.m_screenshots.eraseIdx s.m_selectedIndex.toNat
       }).boundSelectedIndex wh).setVScrollInfo wh)
  else s

/-- The scrollbar request kinds `SLMainWindow::onVScroll` distinguishes
(screenshot-list.cc:341-377); `other` is the ignored default. -/
inductive VScrollRequest where
  | pageUp
  | pageDown
  | lineUp
  | lineDown
  | thumbPosition
  | thumbTrack
  | other
deriving DecidableEq, Repr

/-- `SLMainWindow::onVScroll(request, newPos)`
(screenshot-list.cc:341-377): adjust `m_listScroll` per the request and
then call `setVScrollInfo` (which clamps); unrecognized requests return
without touching anything. -/
def SLMainWindow.onVScroll (s : SLMainWindow) (wh : Int)
    (request : VScrollRequest) (newPos : Int) : SLMainWindow :=
  match request with
  | .pageUp =>
    ({ s with m_listScroll := s.m_listScroll - wh }).setVScrollInfo wh
  | .pageDown =>
    ({ s with m_listScroll := s.m_listScroll + wh }).setVScrollInfo wh
  | .lineUp =>
    ({ s with m_listScroll := s.m_listScroll - c_vscrollLineAmount
     }).setVScrollInfo wh
  | .lineDown =>
    ({ s with m_listScroll := s.m_listScroll + c_vscrollLineAmount
     }).setVScrollInfo wh
  | .thumbPosition =>
    ({ s with m_listScroll := newPos }).setVScrollInfo wh
  | .thumbTrack =>
    ({ s with m_listScroll := newPos }).setVScrollInfo wh
  | .other => s

/-! ## JSON persistence (screenshot-list.cc:162-237, json-util.h) -/

/-- An abstract JSON object restricted to the keys the program reads or
writes; `none` = the key is absent.  `hotkeysRequired` is the extra key
that `loadFromJSON` tests (its value is never read). -/
structure SLJson where
  screenshots : Option (List String)
  listWidth : Option Int
  selectedIndex : Option Int
  listScroll : Option Int
  hotkeysRegistered : Option Bool
  hotkeysRequired : Option Bool
deriving DecidableEq, Repr

/-- The JSON object with none of the recognized keys. -/
def SLJson.null : SLJson :=
  { screenshots := none, listWidth := none, selectedIndex := none,
    listScroll := none, hotkeysRegistered := none,
    hotkeysRequired := none }

/-- `Screenshot::saveToJSON()` (screenshot.cc:267-270): the file name as
a JSON string. -/
def Screenshot.saveToJSON (sc : Screenshot) : String := sc.m_fname

/-- `SLMainWindow::setHotkeysRegistered(r)` (screenshot-list.cc:123-133):
if `r` differs from the current flag, register/unregister the hotkeys
with the OS (a host call) and set the flag. -/
def SLMainWindow.setHotkeysRegistered (s : SLMainWindow) (r : Bool) :
    SLMainWindow :=
  if r ≠ s.m_hotkeysRegistered then { s with m_hotkeysRegistered := r }
  else s

/-- `SLMainWindow::loadFromJSON(obj)` (screenshot-list.cc:163-172).  The
three `LOAD_KEY_FIELD` uses (json-util.h:16-24) each overwrite their
field exactly when their key is present.  The hotkeys block then tests
`obj.hasKey("hotkeysRequired")` but reads `obj.at("hotkeysRegistered")`;
`json.hpp`'s const `at` on an absent key raises, modelled as `none`. -/
def SLMainWindow.loadFromJSON (s : SLMainWindow) (obj : SLJson) :
    Option SLMainWindow :=
  let s1 := match obj.listWidth with
            | some v => { s with m_listWidth := v }
            | none => s
  let s2 := match obj.selectedIndex with
            | some v => { s1 with m_selectedIndex := v }
            | none => s1
  let s3 := match obj.listScroll with
            | some v => { s2 with m_listScroll := v }
            | none => s2
  match obj.hotkeysRequired with
  | some _ =>
    match obj.hotkeysRegistered with
    | some b => some (s3.setHotkeysRegistered b)
    | none => none
  | none => some s3

/-- `SLMainWindow::saveToJSON()` (screenshot-list.cc:175-193): the
`screenshots` array of per-item file names, then the four
`SAVE_KEY_FIELD_CTOR` fields (json-util.h:10-11). -/
def SLMainWindow.saveToJSON (s : SLMainWindow) : SLJson :=
  { screenshots := some (s.m_screenshots.map Screenshot.saveToJSON),
    listWidth := some s.m_listWidth,
    selectedIndex := some s.m_selectedIndex,
    listScroll := some s.m_listScroll,
    hotkeysRegistered := some s.m_hotkeysRegistered,
    hotkeysRequired := none }

/-- `SLMainWindow::loadFromFile(fname)` (screenshot-list.cc:196-212).
`file` is what the `ifstream` open+read yields (`none` = could not open,
with `errnoMsg` the `strerror(errno)` text); `LoadJSON` models
`json::JSON::Load` from the vendored `json.hpp` (absent from the
repository's sources), which per the comment at screenshot-list.cc:206
"merely reports errors to stderr": it has no failure channel and on
unparseable input yields an object without the recognized keys.  The
outer `Option` is `none` when `loadFromJSON` raises. -/
def SLMainWindow.loadFromFile (LoadJSON : String → SLJson)
    (errnoMsg : String) (file : Option String) (s : SLMainWindow) :
    Option (String × SLMainWindow) :=
  match file with
  | none => some (errnoMsg, s)
  | some contents =>
    (s.loadFromJSON (LoadJSON contents)).map (fun s2 => ("", s2))

/-! ## Operation sequences over the list model

The public mutating entry points reachable from input events:
capture-and-prepend (`VK_F5`), `selectItem` (`VK_UP`/`VK_DOWN` and
`captureScreen`), and delete-selected (`VK_DELETE`).  Each event carries
the window client height `wh` current at that moment. -/

/-- One public operation on the list model. -/
inductive Op where
  | capture (wh : Int) (shot : Screenshot)
  | select (wh : Int) (newIndex : Int)
  | deleteSel (wh : Int)
deriving DecidableEq, Repr

/-- Apply one operation. -/
def applyOp (s : SLMainWindow) : Op → SLMainWindow
  | .capture wh shot => s.captureScreen wh shot
  | .select wh n => s.selectItem wh n
  | .deleteSel wh => s.deleteSelected wh

/-- Run a sequence of operations from a starting state. -/
def runOps (s : SLMainWindow) (ops : List Op) : SLMainWindow :=
  ops.foldl applyOp s

/-- The selection invariant: `m_selectedIndex` is −1 exactly when the
sequence is empty, and otherwise a valid index into it. -/
def SelInv (s : SLMainWindow) : Prop :=
  (s.m_selectedIndex = -1 ↔ s.m_screenshots = []) ∧
  (s.m_screenshots ≠ [] →
    0 ≤ s.m_selectedIndex ∧
    s.m_selectedIndex < (s.m_screenshots.length : Int))

/-- The scroll invariant for window client height `wh`:
`m_listScroll ∈ [0, max 0 (contentHeight − wh)]`. -/
def ScrollInv (wh : Int) (s : SLMainWindow) : Prop :=
  0 ≤ s.m_listScroll ∧
  s.m_listScroll ≤ max 0 (s.getListContentHeight - wh)

/-! ## Concrete states used by the closed theorems -/

/-- A 1×100 screenshot: at inner list width 1 its list-item height is
100 + two margins = 110 pixels, taller than a 50-pixel window. -/
def tallShot : Screenshot :=
  { m_bitmap := some 1, m_width := 1, m_height := 100,
    m_fname := "shots/tall.bmp" }

/-- A window state whose single item has vertical bounds `(0, 110)`:
list width 11 leaves inner width 1 for `tallShot`. -/
def tallState : SLMainWindow :=
  { m_screenshots := [tallShot],
    m_listWidth := 11,
    m_selectedIndex := 0,
    m_listScroll := 0,
    m_hotkeysRegistered := false }

/-- A state as it would be just before File|Save: three named
screenshots plus non-default settings. -/
def savedState : SLMainWindow :=
  { m_screenshots :=
      [{ m_bitmap := some 1, m_width := 4, m_height := 3,
         m_fname := "shots/a.bmp" },
       { m_bitmap := some 2, m_width := 4, m_height := 3,
         m_fname := "shots/b.bmp" },
       { m_bitmap := some 3, m_width := 4, m_height := 3,
         m_fname := "shots/c.bmp" }],
    m_listWidth := 123,
    m_selectedIndex := 1,
    m_listScroll := 7,
    m_hotkeysRegistered := true }

/-- A JSON object holding only the key `"hotkeysRegistered"` (with value
`true`). -/
def hotkeysOnlyJson : SLJson :=
  { SLJson.null with hotkeysRegistered := some true }

/-! ## Helper lemmas -/

/-- `Int.tdiv` on non-negative literals is `Nat` division. -/
theorem tdiv_ofNat (m n : Nat) :
    (Int.ofNat m).tdiv (Int.ofNat n) = Int.ofNat (m / n) := rfl

/-- The split loop keeps any projection that structure updates of `x`
and `w` do not touch. -/
theorem splitFromRightLoop_map_proj {α : Type} (f : DCX → α)
    (hf : ∀ (d : DCX) (w : Int),
      f { d with x := d.x + d.w, w := w } = f d) :
    ∀ (widths : List Int) (d : DCX),
      (splitFromRightLoop d widths).map f =
        List.replicate widths.length (f d) := by
  intro widths
  induction widths with
  | nil => intro d; rfl
  | cons w rest ih =>
    intro d
    simp only [splitFromRightLoop, List.map_cons, List.length_cons,
      List.replicate_succ, ih, hf]

/-- The split loop returns exactly the requested widths. -/
theorem splitFromRightLoop_map_w :
    ∀ (widths : List Int) (d : DCX),
      (splitFromRightLoop d widths).map DCX.w = widths := by
  intro widths
  induction widths with
  | nil => intro d; rfl
  | cons w rest ih =>
    intro d
    simp only [splitFromRightLoop, List.map_cons, ih]

/-- Each viewport the split loop emits starts where the previous
viewport (including the seed) ends. -/
theorem splitFromRightLoop_chain :
    ∀ (widths : List Int) (d : DCX),
      List.Chain' (fun a b => b.x = a.x + a.w)
        (d :: splitFromRightLoop d widths) := by
  intro widths
  induction widths with
  | nil => intro d; simp [splitFromRightLoop]
  | cons w rest ih =>
    intro d
    rw [splitFromRightLoop]
    exact List.chain'_cons.mpr ⟨rfl, ih { d with x := d.x + d.w, w := w }⟩

/-- C10: `splitHorizontallyFromRight` on N widths returns N+1 viewports:
the first keeps the original `x` and has width `originalWidth − sum`
(possibly negative), each subsequent viewport has the corresponding
requested width and starts at the previous viewport's `x` plus its
width (adjacent columns abut), and every returned viewport keeps the
original `y`, `h` and drawing-surface reference. -/
theorem splitHorizontallyFromRight_spec (d : DCX) (widths : List Int) :
    (d.splitHorizontallyFromRight widths).length = widths.length + 1 ∧
    (d.splitHorizontallyFromRight widths).head? =
      some { d with w := d.w - vectorSum widths } ∧
    (d.splitHorizontallyFromRight widths).map DCX.w =
      (d.w - vectorSum widths) :: widths ∧
    List.Chain' (fun a b => b.x = a.x + a.w)
      (d.splitHorizontallyFromRight widths) ∧
    (d.splitHorizontallyFromRight widths).map DCX.y =
      List.replicate (widths.length + 1) d.y ∧
    (d.splitHorizontallyFromRight widths).map DCX.h =
      List.replicate (widths.length + 1) d.h ∧
    (d.splitHorizontallyFromRight widths).map DCX.hdc =
      List.replicate (widths.length + 1) d.hdc := by
  refine ⟨?_, rfl, ?_, ?_, ?_, ?_, ?_⟩
  · have h1 := congrArg List.length
      (splitFromRightLoop_map_w widths { d with w := d.w - vectorSum widths })
    rw [List.length_map] at h1
    simp only [DCX.splitHorizontallyFromRight, List.length_cons, h1]
  · simp only [DCX.splitHorizontallyFromRight, List.map_cons,
      splitFromRightLoop_map_w]
  · exact splitFromRightLoop_chain widths _
  · simp only [DCX.splitHorizontallyFromRight, List.map_cons,
      List.replicate_succ,
      splitFromRightLoop_map_proj DCX.y (fun _ _ => rfl)]
  · simp only [DCX.splitHorizontallyFromRight, List.map_cons,
      List.replicate_succ,
      splitFromRightLoop_map_proj DCX.h (fun _ _ => rfl)]
  · simp only [DCX.splitHorizontallyFromRight, List.map_cons,
      List.replicate_succ,
      splitFromRightLoop_map_proj DCX.hdc (fun _ _ => rfl)]

/-- C7: `readFromBMPFile` validates the candidate before modifying the
`Screenshot`: on a failed load it returns `false` with every member
(bitmap handle, dimensions, file name) unchanged; only on a successful
load is the old state discarded and replaced by the loaded image and
the new file name, returning `true`. -/
theorem readFromBMPFile_atomic (sc : Screenshot) (fname : String) :
    sc.readFromBMPFile fname none = (false, sc) ∧
    (∀ img : LoadedImage,
      sc.readFromBMPFile fname (some img) =
        (true, { m_bitmap := some img.handle, m_width := img.bmWidth,
                 m_height := img.bmHeight, m_fname := fname })) :=
  ⟨rfl, fun _ => rfl⟩

/-- C8: `writeToBMPFile` produces, in order, a 14-byte file header, a
40-byte info header declaring 1 color plane, 32 bits per pixel and no
compression, then the pixel data; the total-size field is the sum of
the two header sizes and the actual pixel payload length, the
pixel-data offset is the sum of the two header sizes, rows are padded
to a 4-byte boundary, and (the encoder being `const`) the source image
is not mutated — the model returns only the encoded file. -/
theorem writeToBMPFile_layout (sc : Screenshot) :
    (sc.writeToBMPFile).bmiHeader.biSize = sizeofBITMAPINFOHEADER ∧
    (sc.writeToBMPFile).bmiHeader.biWidth = sc.m_width ∧
    (sc.writeToBMPFile).bmiHeader.biHeight = sc.m_height ∧
    (sc.writeToBMPFile).bmiHeader.biPlanes = 1 ∧
    (sc.writeToBMPFile).bmiHeader.biBitCount = 32 ∧
    (sc.writeToBMPFile).bmiHeader.biCompression = BI_RGB ∧
    (sc.writeToBMPFile).bmfHeader.bfType = 0x4D42 ∧
    (sc.writeToBMPFile).bmfHeader.bfReserved1 = 0 ∧
    (sc.writeToBMPFile).bmfHeader.bfReserved2 = 0 ∧
    (sc.writeToBMPFile).bmfHeader.bfSize =
      sizeofBITMAPFILEHEADER + sizeofBITMAPINFOHEADER +
        (sc.writeToBMPFile).pixelDataSize ∧
    (sc.writeToBMPFile).bmfHeader.bfOffBits =
      sizeofBITMAPFILEHEADER + sizeofBITMAPINFOHEADER ∧
    (sc.writeToBMPFile).writes =
      [sizeofBITMAPFILEHEADER, sizeofBITMAPINFOHEADER,
       (sc.writeToBMPFile).pixelDataSize] ∧
    (sc.writeToBMPFile).pixelDataSize =
      (((sc.m_width * 32 + 31).tdiv 32) * 4) * sc.m_height ∧
    ((sc.m_width * 32 + 31).tdiv 32) * 4 % 4 = 0 ∧
    (0 ≤ sc.m_width →
      ((sc.m_width * 32 + 31).tdiv 32) * 4 = sc.m_width * 4) := by
  refine ⟨rfl, rfl, rfl, rfl, rfl, rfl, rfl, rfl, rfl, rfl, rfl, rfl,
    rfl, ?_, ?_⟩
  · generalize (sc.m_width * 32 + 31).tdiv 32 = k
    omega
  · intro hw
    obtain ⟨m, hm0⟩ := Int.eq_ofNat_of_zero_le hw
    rw [hm0]
    have hm : (m * 32 + 31) / 32 = m := by omega
    calc ((Int.ofNat m * 32 + 31).tdiv 32) * 4
        = (Int.ofNat ((m * 32 + 31) / 32)) * 4 := rfl
      _ = Int.ofNat m * 4 := by rw [hm]

/-- C9: for a positive destination rectangle and a non-empty source,
`drawToDC` preserves the source aspect ratio: when the source is
relatively narrower it draws left/right bars with
`leftBar + rightBar + properWidth = w`; when relatively wider,
top/bottom bars with `topBar + bottomBar + properHeight = h`; when the
ratios match exactly it draws full-bleed; and a zero or negative
destination size is a no-op. -/
theorem drawToDC_aspect (sc : Screenshot) (x y w h : Int) :
    ((w ≤ 0 ∨ h ≤ 0) → sc.drawToDC x y w h = .noop) ∧
    (0 < w → 0 < h → 0 < sc.m_width → 0 < sc.m_height →
      ((sc.m_width * h < w * sc.m_height →
         ∃ l r p, sc.drawToDC x y w h = .barsLR l r p ∧ l + r + p = w) ∧
       (w * sc.m_height < sc.m_width * h →
         ∃ t b p, sc.drawToDC x y w h = .barsTB t b p ∧ t + b + p = h) ∧
       (sc.m_width * h = w * sc.m_height →
         sc.drawToDC x y w h = .fullBleed))) := by
  constructor
  · intro hnp
    unfold Screenshot.drawToDC
    rw [if_pos hnp]
  · intro hw hh hsw hsh
    have hnp : ¬(w ≤ 0 ∨ h ≤ 0) := by omega
    have hne : ¬(sc.m_width ≤ 0 ∨ sc.m_height ≤ 0) := by omega
    refine ⟨?_, ?_, ?_⟩
    · intro hlt
      refine ⟨(w - (h * sc.m_width).tdiv sc.m_height).tdiv 2,
        w - (h * sc.m_width).tdiv sc.m_height -
          (w - (h * sc.m_width).tdiv sc.m_height).tdiv 2,
        (h * sc.m_width).tdiv sc.m_height, ?_, by ring⟩
      unfold Screenshot.drawToDC
      rw [if_neg hnp, if_neg hne, if_pos hlt]
    · intro hgt
      have hnlt : ¬(sc.m_width * h < w * sc.m_height) := by omega
      refine ⟨(h - (w * sc.m_height).tdiv sc.m_width).tdiv 2,
        h - (w * sc.m_height).tdiv sc.m_width -
          (h - (w * sc.m_height).tdiv sc.m_width).tdiv 2,
        (w * sc.m_height).tdiv sc.m_width, ?_, by ring⟩
      unfold Screenshot.drawToDC
      rw [if_neg hnp, if_neg hne, if_neg hnlt, if_pos hgt]
    · intro heq
      have hnlt : ¬(sc.m_width * h < w * sc.m_height) := by omega
      have hngt : ¬(w * sc.m_height < sc.m_width * h) := by omega
      unfold Screenshot.drawToDC
      rw [if_neg hnp, if_neg hne, if_neg hnlt, if_neg hngt]

/-- `setVScrollInfo` changes only `m_listScroll`. -/
theorem setVScrollInfo_m_screenshots (s : SLMainWindow) (wh : Int) :
    (s.setVScrollInfo wh).m_screenshots = s.m_screenshots := rfl

/-- `setVScrollInfo` does not touch the selection. -/
theorem setVScrollInfo_m_selectedIndex (s : SLMainWindow) (wh : Int) :
    (s.setVScrollInfo wh).m_selectedIndex = s.m_selectedIndex := rfl

/-- `scrollToSelectedIndex` changes only `m_listScroll`. -/
theorem scrollToSelectedIndex_m_screenshots (s : SLMainWindow) (wh : Int) :
    (s.scrollToSelectedIndex wh).m_screenshots = s.m_screenshots := by
  unfold SLMainWindow.scrollToSelectedIndex
  split_ifs <;> rfl

/-- `scrollToSelectedIndex` does not touch the selection. -/
theorem scrollToSelectedIndex_m_selectedIndex (s : SLMainWindow)
    (wh : Int) :
    (s.scrollToSelectedIndex wh).m_selectedIndex = s.m_selectedIndex := by
  unfold SLMainWindow.scrollToSelectedIndex
  split_ifs <;> rfl

/-- `selectItem` never changes the screenshot sequence. -/
theorem selectItem_m_screenshots (s : SLMainWindow) (wh n : Int) :
    (s.selectItem wh n).m_screenshots = s.m_screenshots := by
  unfold SLMainWindow.selectItem
  split_ifs with hc
  · rw [setVScrollInfo_m_screenshots, scrollToSelectedIndex_m_screenshots]
  · rfl

/-- After `selectItem`, the selection is the bounded index (whether or
not the redraw branch was taken). -/
theorem selectItem_m_selectedIndex (s : SLMainWindow) (wh n : Int) :
    (s.selectItem wh n).m_selectedIndex = boundIndex s n := by
  unfold SLMainWindow.selectItem
  split_ifs with hc
  · rw [setVScrollInfo_m_selectedIndex, scrollToSelectedIndex_m_selectedIndex]
  · push_neg at hc
    exact hc.symm

/-- On an empty sequence the bounded index is −1. -/
theorem boundIndex_of_nil (s : SLMainWindow) (n : Int)
    (hL : s.m_screenshots = []) : boundIndex s n = -1 := by
  unfold boundIndex
  rw [if_pos hL]

/-- On a non-empty sequence the bounded index is a valid index. -/
theorem boundIndex_of_ne_nil (s : SLMainWindow) (n : Int)
    (hL : s.m_screenshots ≠ []) :
    0 ≤ boundIndex s n ∧
    boundIndex s n < (s.m_screenshots.length : Int) := by
  have hlen : s.m_screenshots.length ≠ 0 := fun h0 =>
    hL (List.length_eq_zero.mp h0)
  unfold boundIndex
  rw [if_neg hL]
  omega

/-- `selectItem` establishes the selection invariant from any state. -/
theorem selectItem_SelInv (s : SLMainWindow) (wh n : Int) :
    SelInv (s.selectItem wh n) := by
  unfold SelInv
  rw [selectItem_m_screenshots, selectItem_m_selectedIndex]
  by_cases hL : s.m_screenshots = []
  · rw [boundIndex_of_nil s n hL, hL]
    simp
  · have hb := boundIndex_of_ne_nil s n hL
    refine ⟨⟨fun h1 => absurd h1 (by omega), fun h2 => absurd h2 hL⟩,
      fun _ => hb⟩

/-- `setVScrollInfo` preserves the selection invariant. -/
theorem SelInv_setVScrollInfo (s : SLMainWindow) (wh : Int)
    (h : SelInv s) : SelInv (s.setVScrollInfo wh) := by
  unfold SelInv at h ⊢
  rw [setVScrollInfo_m_screenshots, setVScrollInfo_m_selectedIndex]
  exact h

/-- Every public operation preserves the selection invariant. -/
theorem applyOp_SelInv (s : SLMainWindow) (op : Op) (hs : SelInv s) :
    SelInv (applyOp s op) := by
  cases op with
  | capture wh shot =>
    show SelInv (s.captureScreen wh shot)
    unfold SLMainWindow.captureScreen
    exact SelInv_setVScrollInfo _ _ (selectItem_SelInv _ _ _)
  | select wh n =>
    exact selectItem_SelInv s wh n
  | deleteSel wh =>
    show SelInv (s.deleteSelected wh)
    unfold SLMainWindow.deleteSelected
    split_ifs with hc
    · unfold SLMainWindow.boundSelectedIndex
      exact SelInv_setVScrollInfo _ _ (selectItem_SelInv _ _ _)
    · exact hs

/-- Operation sequences preserve the selection invariant. -/
theorem runOps_SelInv (ops : List Op) :
    ∀ s : SLMainWindow, SelInv s → SelInv (runOps s ops) := by
  induction ops with
  | nil => intro s h; exact h
  | cons op rest ih => intro s h; exact ih _ (applyOp_SelInv s op h)

/-- The freshly-constructed window satisfies the selection invariant. -/
theorem SelInv_init : SelInv SLMainWindow.init := by
  unfold SelInv SLMainWindow.init
  simp

/-- C2: in every state reachable from the initial state by any sequence
of the public operations (capture-and-prepend, `selectItem`,
delete-selected), `m_selectedIndex` is −1 exactly when the sequence is
empty and otherwise a valid index; moreover delete-selected re-bounds
the selection by clamping (to `min oldIndex (newSize − 1)`, −1 when the
list empties), not by wrapping. -/
theorem selection_invariant :
    (∀ ops : List Op, SelInv (runOps SLMainWindow.init ops)) ∧
    (∀ (wh : Int) (s : SLMainWindow),
      0 ≤ s.m_selectedIndex →
      s.m_selectedIndex < (s.m_screenshots.length : Int) →
      (s.deleteSelected wh).m_selectedIndex =
        min s.m_selectedIndex ((s.m_screenshots.length : Int) - 2)) := by
  constructor
  · intro ops
    exact runOps_SelInv ops _ SelInv_init
  · intro wh s h0 h1
    have hL : s.m_screenshots ≠ [] := by
      intro h
      rw [h] at h1
      simp at h1
      omega
    have hidx : s.m_selectedIndex.toNat < s.m_screenshots.length := by
      omega
    have hlen := List.length_eraseIdx_of_lt hidx
    unfold SLMainWindow.deleteSelected
    rw [if_pos ⟨hL, h0⟩]
    unfold SLMainWindow.boundSelectedIndex
    rw [setVScrollInfo_m_selectedIndex, selectItem_m_selectedIndex]
    unfold boundIndex
    dsimp only
    split_ifs with he
    · have h2 : (s.m_screenshots.eraseIdx s.m_selectedIndex.toNat).length
          = 0 := by rw [he]; rfl
      rw [hlen] at h2
      omega
    · rw [hlen]
      have hne : s.m_screenshots.length - 1 ≠ 0 := by
        intro h2
        apply he
        apply List.length_eq_zero.mp
        rw [hlen, h2]
      omega

/-- C3 counterexample: for the single-item state whose selected item has
vertical bounds `(0, 110)` and a 50-pixel window with `listScroll = 0`,
the bottom-reveal condition `y+h > listScroll + viewportHeight` holds,
yet `scrollToSelectedIndex` leaves `listScroll = 0` (the item's top)
rather than setting it to `y+h−viewportHeight = 60` as the claim's
if/else chain states: both adjustments applied. -/
theorem scrollToSelectedIndex_counterexample :
    tallState.getItemVerticalBounds 0 = (0, 110) ∧
    ((0 : Int) + 110 > 0 + 50) ∧
    (tallState.scrollToSelectedIndex 50).m_listScroll = 0 ∧
    ((0 : Int) ≠ 0 + 110 - 50) := by
  refine ⟨rfl, by norm_num, rfl, by norm_num⟩

/-- C3 (amended): the second (scroll-up) test of `scrollToSelectedIndex`
compares against the already-updated `listScroll`, so when
`y + h > listScroll + viewportHeight` the result is
`y + h − viewportHeight` for an item no taller than the viewport but
`y` for a taller one (both adjustments apply, and the top is
preferred); otherwise at most one adjustment applies exactly as the
original claim describes. -/
theorem scrollToSelectedIndex_characterization :
    (∀ y h wh listScroll : Int,
      scrollAdjust y h wh listScroll =
        if y + h > listScroll + wh then
          (if h > wh then y else y + h - wh)
        else if y < listScroll then y else listScroll) ∧
    (∀ (s : SLMainWindow) (wh : Int),
      (s.scrollToSelectedIndex wh).m_listScroll =
        if 0 ≤ s.m_selectedIndex then
          scrollAdjust (s.getItemVerticalBounds s.m_selectedIndex).1
            (s.getItemVerticalBounds s.m_selectedIndex).2 wh
            s.m_listScroll
        else s.m_listScroll) := by
  constructor
  · intro y h wh listScroll
    simp only [scrollAdjust]
    split_ifs <;> omega
  · intro s wh
    unfold SLMainWindow.scrollToSelectedIndex
    split_ifs <;> rfl

/-- `setVScrollInfo` establishes the scroll invariant from any state. -/
theorem setVScrollInfo_ScrollInv (s : SLMainWindow) (wh : Int) :
    ScrollInv wh (s.setVScrollInfo wh) := by
  unfold ScrollInv
  refine ⟨?_, ?_⟩
  · show (0 : Int) ≤
      clampStd s.m_listScroll 0 (max 0 (s.getListContentHeight - wh))
    unfold clampStd
    split_ifs <;> omega
  · show clampStd s.m_listScroll 0 (max 0 (s.getListContentHeight - wh)) ≤
      max 0 (s.getListContentHeight - wh)
    unfold clampStd
    split_ifs <;> omega

/-- C4: the clamp performed inside `setVScrollInfo` always leaves
`m_listScroll` in `[0, max 0 (contentHeight − viewportHeight)]`,
whatever the prior value (negative or beyond the maximum); and every
mutation path — capture, selection change, delete, scrollbar
interaction — either leaves the state untouched or ends in that
clamped range (each such path finishes with `setVScrollInfo`; resizing
calls `setVScrollInfo` directly, the first conjunct). -/
theorem listScroll_clamped :
    (∀ (wh : Int) (s : SLMainWindow),
      ScrollInv wh (s.setVScrollInfo wh)) ∧
    (∀ (wh : Int) (shot : Screenshot) (s : SLMainWindow),
      ScrollInv wh (s.captureScreen wh shot)) ∧
    (∀ (wh n : Int) (s : SLMainWindow),
      s.selectItem wh n = s ∨ ScrollInv wh (s.selectItem wh n)) ∧
    (∀ (wh : Int) (s : SLMainWindow),
      s.deleteSelected wh = s ∨ ScrollInv wh (s.deleteSelected wh)) ∧
    (∀ (wh newPos : Int) (r : VScrollRequest) (s : SLMainWindow),
      s.onVScroll wh r newPos = s ∨
        ScrollInv wh (s.onVScroll wh r newPos)) := by
  refine ⟨fun wh s => setVScrollInfo_ScrollInv s wh, ?_, ?_, ?_, ?_⟩
  · intro wh shot s
    unfold SLMainWindow.captureScreen
    exact setVScrollInfo_ScrollInv _ _
  · intro wh n s
    unfold SLMainWindow.selectItem
    split_ifs with hc
    · exact Or.inr (setVScrollInfo_ScrollInv _ _)
    · exact Or.inl rfl
  · intro wh s
    unfold SLMainWindow.deleteSelected
    split_ifs with hc
    · exact Or.inr (setVScrollInfo_ScrollInv _ _)
    · exact Or.inl rfl
  · intro wh newPos r s
    cases r
    case other => exact Or.inl rfl
    all_goals exact Or.inr (setVScrollInfo_ScrollInv _ _)

/-- C1 (evaluation at the failing input): saving a 3-item list records
the three file paths under the `screenshots` key, but loading the very
same object into a fresh window restores only
`listWidth`/`selectedIndex`/`listScroll` — the screenshot list stays
empty and `hotkeysRegistered` stays `false` even though `true` was
saved. -/
theorem save_then_load_drops_screenshots :
    savedState.saveToJSON.screenshots =
      some ["shots/a.bmp", "shots/b.bmp", "shots/c.bmp"] ∧
    savedState.m_hotkeysRegistered = true ∧
    SLMainWindow.init.loadFromJSON savedState.saveToJSON =
      some { m_screenshots := [], m_listWidth := 123,
             m_selectedIndex := 1, m_listScroll := 7,
             m_hotkeysRegistered := false } :=
  ⟨rfl, rfl, rfl⟩

/-- C5 (evaluation at the failing input): a JSON object carrying only
the key `"hotkeysRegistered"` (value `true`) leaves the field at its
prior value `false`, because the load of that field is gated on the
unrelated key `"hotkeysRequired"`. -/
theorem loadFromJSON_hotkeys_key_mismatch :
    hotkeysOnlyJson.hotkeysRegistered = some true ∧
    SLMainWindow.init.m_hotkeysRegistered = false ∧
    SLMainWindow.init.loadFromJSON hotkeysOnlyJson =
      some SLMainWindow.init :=
  ⟨rfl, rfl, rfl⟩

/-- C6 counterexample: on a file whose contents do not parse as JSON
(`JSON::Load` yields the key-less object and reports only to stderr),
`loadFromFile` returns the empty string — the success value per
screenshot-list.h:72-74 — with the model unchanged, instead of the
non-success result the claim requires. -/
theorem loadFromFile_parse_failure_counterexample :
    SLMainWindow.loadFromFile (fun _ => SLJson.null) "I/O error"
      (some "this is not JSON") SLMainWindow.init =
      some ("", SLMainWindow.init) := rfl

/-- C6 (amended): when the index file cannot be opened, `loadFromFile`
returns the `strerror` message (a non-success result) and the in-memory
model is unchanged; when the file opens but its contents do not parse,
the parse error goes only to stderr, `loadFromFile` returns the empty
success string, and the model is unchanged (the key-less parse result
overwrites nothing). -/
theorem loadFromFile_characterization :
    (∀ (LoadJSON : String → SLJson) (errnoMsg : String)
       (s : SLMainWindow),
      SLMainWindow.loadFromFile LoadJSON errnoMsg none s =
        some (errnoMsg, s)) ∧
    (∀ (errnoMsg contents : String) (s : SLMainWindow),
      SLMainWindow.loadFromFile (fun _ => SLJson.null) errnoMsg
        (some contents) s = some ("", s)) :=
  ⟨fun _ _ _ => rfl, fun _ _ _ => rfl⟩
